import Mathlib

/-!
Verification development for the splitcopy tool (src/splitcopy.py).

The program splits a local file into chunks, copies them in parallel to a
remote Junos host over FTP or SCP, reassembles them remotely and verifies the
result with a SHA-1 comparison.  This file gives a shallow embedding of the
program's core logic:

* pure computations (chunk sizing, progress accounting, protocol selection,
  the string rewriting done by the limit negotiator) are translated directly
  into Lean functions over `Nat`/`Int`/`String`;
* the remote shell is an oracle `String → Bool × String` mapping a command
  string to the pair (last_ok, output), exactly the interface the script uses
  through `StartShell.run`;
* the body of `main` that runs inside the established shell session is
  embedded as `mainRun : Env → List Ev × Outcome`, where `Env` fixes the
  oracle answers for one run, the trace `List Ev` records the externally
  visible remote-side actions (staging-directory creation and removal, chunk
  transfer dispatch, join, checksum command) in program order, and `Outcome`
  is the process exit (an explicit sys.exit code, or an uncaught-exception
  crash).

Output parsing that no claim depends on (the `df` block count, the parsed
remote sha1 value) is abstracted to its parsed result in `Env`; the string
processing the limit negotiator performs is modelled on the actual strings.
-/

namespace Splitcopy

/-! ### Python string primitives used by the script

These are implemented by structural recursion over `List Char` (rather than
through the corresponding `String` library functions, whose well-founded
recursion does not reduce inside the kernel) so that every concrete run of
the model can be evaluated by `decide`. -/

/-- Split at the first occurrence of `pat`: `some (before, after)`, or
`none` when `pat` (nonempty at every use site) does not occur. -/
def findSub (pat : List Char) : List Char → Option (List Char × List Char)
  | [] => none
  | c :: cs =>
      if pat.isPrefixOf (c :: cs) then some ([], (c :: cs).drop pat.length)
      else (findSub pat cs).map (fun pr => (c :: pr.1, pr.2))

/-- The element at index 1 of a Python `s.split(sep)`: the text between the
first and second occurrence of `sep` (to the end when `sep` occurs once),
`none` when `sep` does not occur at all (so that indexing `[1]` raises). -/
def secondSegment (sep s : List Char) : Option (List Char) :=
  (findSub sep s).map (fun pr =>
    match findSub sep pr.2 with
    | none => pr.2
    | some pr2 => pr2.1)

/-- Python `re.split` on a one-character-alternative pattern: split at every
single occurrence, keeping empty pieces. -/
def splitAnyAux (p : Char → Bool) : List Char → List Char → List (List Char)
  | [], acc => [acc.reverse]
  | c :: cs, acc =>
      if p c then acc.reverse :: splitAnyAux p cs []
      else splitAnyAux p cs (c :: acc)

/-- Python `s.strip()` for ASCII input. -/
def chStrip (l : List Char) : List Char :=
  ((l.dropWhile Char.isWhitespace).reverse.dropWhile Char.isWhitespace).reverse

/-- Python `s.rstrip()` for ASCII input. -/
def chRStrip (l : List Char) : List Char :=
  (l.reverse.dropWhile Char.isWhitespace).reverse

/-- The numeric value of a nonempty all-digit character list. -/
def digitsVal? (l : List Char) : Option Nat :=
  if !l.isEmpty && l.all Char.isDigit then
    some (l.foldl (fun n c => n * 10 + (c.toNat - 48)) 0)
  else none

/-- Python `int(s)` on the strings this script feeds it: optional
surrounding whitespace, optional sign, then decimal digits.  `none` models
the `ValueError` raised on anything else. -/
def parsePyInt (s : String) : Option Int :=
  match chStrip s.data with
  | '-' :: rest => (digitsVal? rest).map (fun n => -(n : Int))
  | '+' :: rest => (digitsVal? rest).map (fun n => (n : Int))
  | t => (digitsVal? t).map (fun n => (n : Int))

/-- Model of `re.sub(' [0-9]+$', '', s)`: remove a final run of digits and
the single space before it, when the string ends that way; otherwise leave
`s` unchanged. -/
def stripTrailingNum (s : String) : String :=
  match s.data.reverse.span Char.isDigit with
  | (digits, rest) =>
      if !digits.isEmpty then
        match rest with
        | ' ' :: rest2 => String.mk rest2.reverse
        | _ => s
      else s

/-- Replace every occurrence of `pat` (nonempty) by `rep`, scanning left to
right past each replacement, as `re.sub` with a literal pattern does.  The
fuel argument of the worker is the input length, which always suffices. -/
def chReplaceFuel (pat rep : List Char) : Nat → List Char → List Char
  | 0, s => s
  | _ + 1, [] => []
  | fuel + 1, c :: cs =>
      if pat.isPrefixOf (c :: cs) then
        rep ++ chReplaceFuel pat rep fuel ((c :: cs).drop pat.length)
      else c :: chReplaceFuel pat rep fuel cs

/-- Python `re.sub(pat, rep, s)` for a literal pattern. -/
def replaceAll (s pat rep : String) : String :=
  String.mk (chReplaceFuel pat.data rep.data s.data.length s.data)

/-- Model of `re.search(sub, s) != None` for a literal pattern `sub`:
does `sub` occur in `s`? -/
def containsSub (s sub : String) : Bool :=
  (findSub sub.data s.data).isSome

/-- Model of `re.search(marker + '.*', s).group(0)` for a literal `marker`
(the script's patterns quote every regex metacharacter except the final
`.*`): the text from the first occurrence of `marker` up to the next newline,
or `none` when `marker` does not occur (in which case `.group(0)` raises
`AttributeError`). -/
def reSearchLine (marker s : String) : Option String :=
  (findSub marker.data s.data).map (fun pr =>
    String.mk (marker.data ++ pr.2.takeWhile (fun ch => ch != '\n')))

/-! ### Chunk Planner (src/splitcopy.py lines 155-172)

`split_size` embeds the chunk-size computation of `main`.  The file size is
taken as an `Int` (Python integers are unbounded and `divmod` is floor
division, i.e. `Int.fdiv`); `os.path.getsize` only ever returns non-negative
values, which is why several theorems below carry a `0 ≤ f` hypothesis.

The probe argument is the result of `ss.run('uname -i')`: `none` when the
command failed (`last_ok` false), `some out` with the raw output otherwise.
The script takes the second `\n`-separated line of the output (`ver[1]`
`.split('\n')[1]`, raising `IndexError` when there is none — modelled as the
`none` result), strips trailing whitespace (`rstrip`), and tests it against
`re.match(r'JNPR', ...)`, i.e. a prefix match. -/

def split_size (file_size : Int) (isFtp : Bool) (probe : Option String) : Option Int :=
  if isFtp then some (Int.fdiv file_size 40)
  else
    match probe with
    | some out =>
        match secondSegment ['\n'] out.data with
        | none => none
        | some l =>
            if "JNPR".data.isPrefixOf (chRStrip l) then some (Int.fdiv file_size 20)
            else some (Int.fdiv file_size 13)
    | none => some (Int.fdiv file_size 13)

/-! ### Protocol selection (src/splitcopy.py lines 124-133)

`port_check host proto port` is abstracted to a boolean (it returns `False`
on a closed port, a 10 second timeout, or a subprocess error).  The script
exits with code 1 when port 22 is closed; otherwise `-s` forces `scp_put`,
and without `-s` it uses `ftp_put` exactly when port 21 answers, silently
falling back to `scp_put`. -/

inductive CopyFunc
  | ftpPut
  | scpPut
deriving DecidableEq, Repr

/-- The copy-function selection of `main`: `.error 1` is `sys.exit(1)`. -/
def select_copy_func (sshOpen scpFlag ftpOpen : Bool) : Except Nat CopyFunc :=
  if !sshOpen then Except.error 1
  else if scpFlag then Except.ok CopyFunc.scpPut
  else if ftpOpen then Except.ok CopyFunc.ftpPut
  else Except.ok CopyFunc.scpPut

/-! ### UploadProgress (src/splitcopy.py lines 369-394)

One `UploadProgress` instance is created for the whole FTP transfer
(`kvargs = {'callback': UploadProgress(file_size).handle}` in `main`), so all
concurrent chunk transfers call back into the same object.  Every callback
adds the fixed FTP block length 8192 to the shared running total
`block_size`, ignoring its argument, and computes the percentage done from
that total against the whole file size.

Python's `round` on the float `block_size / file_size * 100` is modelled as
round-half-to-even over exact rationals; the claims proved below do not
depend on which rounding function is used. -/

/-- Round half to even, Python's `round` (modelled over `ℚ`). -/
def pyRound (q : ℚ) : Int :=
  let f := ⌊q⌋
  let r := q - f
  if r < 1/2 then f
  else if 1/2 < r then f + 1
  else if f % 2 = 0 then f else f + 1

/-- `round((block_size / file_size) * 100)` for a running total `bs`. -/
def percentOf (bs fileSize : Nat) : Int :=
  pyRound ((bs : ℚ) / (fileSize : ℚ) * 100)

structure UploadProgress where
  block_size : Nat
  file_size : Nat
  last_percent : Int
deriving DecidableEq, Repr

/-- `UploadProgress.__init__` -/
def UploadProgress.init (file_size : Nat) : UploadProgress :=
  { block_size := 0, file_size := file_size, last_percent := 0 }

/-- One callback: returns the updated shared state and whether a progress
message was printed. -/
def UploadProgress.handle (u : UploadProgress) : UploadProgress × Bool :=
  let bs := u.block_size + 8192
  let pd := percentOf bs u.file_size
  if u.last_percent ≠ pd then
    ({ u with block_size := bs, last_percent := pd }, pd % 10 == 0)
  else
    ({ u with block_size := bs }, false)

/-- The shared state after `n` callbacks have completed, in whatever order
the concurrent chunk transfers happened to interleave them (each callback
ignores its argument, so only the count matters). -/
def runCallbacks (u : UploadProgress) : Nat → UploadProgress
  | 0 => u
  | n + 1 => (runCallbacks u n).handle.1

/-! ### Limit Negotiator (src/splitcopy.py lines 479-568)

`limit_check ss con_type` reads `/etc/inetd.conf` over the shell, extracts
the service line(s) for the connection type (`'ftp'` checks the ftp line and
the ssh line, anything else only the ssh line), parses the connection limit
and rate limit out of each line (fields 5 and 6 after splitting on `/` and
space), and for every limit under its threshold (25 for connection-limit,
100 for rate-limit) fetches the live `set ...` configuration statement,
strips the trailing numeric value, rewrites `set` to `deactivate`, and
accumulates the statement.  All accumulated statements are applied in a
single `cli -c "edit;...;commit and-quit"` transaction.

Failure modes, mirroring the Python control flow:
* `.abort` is `sys.exit(1)`: failed `cat /etc/inetd.conf`; a failed or
  non-matching statement fetch (the `raise Exception` arms and every
  exception inside the `try` bodies, including the `IndexError` from
  `split('\r\n')[1]`); a failed commit;
* `.crash` is an uncaught exception: `AttributeError` when an expected
  service line is absent from inetd.conf (outside any `try`), and the
  `IndexError`/`ValueError` from `config[5]`/`config[6]`/`int(...)` in the
  loop header, also outside the `try`.
Both kinds terminate the process before any chunk transfer is dispatched. -/

/-- Split a service line on `/` and space, Python `re.split('/| ', port)`. -/
def splitSlashSpace (s : String) : List String :=
  (splitAnyAux (fun c => c == '/' || c == ' ') s.data []).map String.mk

/-- The connection limit and rate limit parsed from one inetd service line:
`int(config[5])` and `int(config[6])` after `re.split('/| ', port)`.
`none` models the uncaught `IndexError`/`ValueError`. -/
def lineLimits (port : String) : Option (Int × Int) :=
  let config := splitSlashSpace port
  match (config.get? 5).bind parsePyInt, (config.get? 6).bind parsePyInt with
  | some conLim, some rateLim => some (conLim, rateLim)
  | _, _ => none

/-- `config[0]`, the service name of an inetd line (a split result is never
empty, so the Python indexing cannot fail here). -/
def lineServiceName (port : String) : String :=
  (splitSlashSpace port).headD ""

/-- The `cli -c "show configuration ..."` query issued for one service and
one limit keyword. -/
def showConfigCmd (p_name kind : String) : String :=
  "cli -c \"show configuration | display set | grep " ++ p_name ++
    " | grep " ++ kind ++ "\""

/-- Fetch the live configuration statement for `kind` on service `p_name`
and rewrite it into a deactivate statement, as the body of each `if` in
`limit_check` does: require `last_ok` and the keyword in the output, take the
second CRLF-separated line, strip the trailing numeric value, replace `set`
by `deactivate`, and append `;`.  `none` covers all the paths on which the
Python code raises inside the `try` (and therefore exits). -/
def fetchRewrite (run : String → Bool × String) (p_name kind : String) :
    Option String :=
  let d := run (showConfigCmd p_name kind)
  if d.1 && containsSub d.2 kind then
    match secondSegment ['\r', '\n'] d.2.data with
    | none => none
    | some l =>
        some (replaceAll (stripTrailingNum (String.mk l)) "set" "deactivate" ++ ";")
  else none

inductive LCFail
  | crash
  | abort
deriving DecidableEq, Repr

/-- Process one inetd service line: the loop body of `limit_check`.
Returns the deactivate statements accumulated for this line. -/
def processPort (run : String → Bool × String) (port : String) :
    Except LCFail (List String) :=
  match lineLimits port with
  | none => Except.error LCFail.crash
  | some (con_lim, rate_lim) =>
      let p_name := lineServiceName port
      let step1 : Except LCFail (List String) :=
        if con_lim < 25 then
          match fetchRewrite run p_name "connection-limit" with
          | none => Except.error LCFail.abort
          | some c => Except.ok [c]
        else Except.ok []
      match step1 with
      | Except.error e => Except.error e
      | Except.ok l1 =>
          if rate_lim < 100 then
            match fetchRewrite run p_name "rate-limit" with
            | none => Except.error LCFail.abort
            | some c => Except.ok (l1 ++ [c])
          else Except.ok l1

/-- The single configuration transaction built from the accumulated
deactivate statements (each already ends in `;`). -/
def txCmd (cmds : List String) : String :=
  "cli -c \"edit;" ++ String.join cmds ++ "commit and-quit\""

inductive LCResult
  | crash
  | abort
  | done (cmds : List String) (tx : Option String)
deriving DecidableEq, Repr

def LCResult.isDone : LCResult → Bool
  | LCResult.done _ _ => true
  | _ => false

/-- `limit_check` (src/splitcopy.py lines 479-568) over the shell oracle. -/
def limit_check (run : String → Bool × String) (con_type : String) : LCResult :=
  let inetd := run "cat /etc/inetd.conf"
  if !inetd.1 then LCResult.abort
  else
    let ports? : Option (List String) :=
      if con_type = "ftp" then
        match reSearchLine "ftp stream tcp/" inetd.2,
              reSearchLine "ssh stream tcp/" inetd.2 with
        | some a, some b => some [a, b]
        | _, _ => none
      else
        (reSearchLine "ssh stream tcp/" inetd.2).map (fun b => [b])
    match ports? with
    | none => LCResult.crash
    | some ports =>
        match ports.foldl
            (fun acc port => acc.bind
              (fun l => (processPort run port).map (fun l2 => l ++ l2)))
            (Except.ok []) with
        | Except.error LCFail.crash => LCResult.crash
        | Except.error LCFail.abort => LCResult.abort
        | Except.ok cmds =>
            if cmds.isEmpty then LCResult.done [] none
            else if (run (txCmd cmds)).1 then LCResult.done cmds (some (txCmd cmds))
            else LCResult.abort

/-! ### Limit Negotiator, specification side

`limitCheckSpec` restates the Limit Negotiator contract in the structure of
the specification text (spec.md section 4.2 / claim C4): determine the
relevant service lines for the protocol (ftp requires checking both the ftp
and ssh lines, scp only the ssh line); extract the configured
connection-limit and rate-limit of each; for every under-threshold limit
fetch the live `set` statement and rewrite it into a `deactivate` statement;
apply all accumulated statements in one `edit; ...; commit and-quit`
transaction; and treat any failure to read the configuration, locate a limit
statement, or commit as fatal.  It is compared with the source-derived
`limit_check` after collapsing the two fatal exit styles (explicit
`sys.exit(1)` versus uncaught exception) which the specification does not
distinguish. -/

inductive SpecResult
  | fatal
  | done (cmds : List String) (tx : Option String)
deriving DecidableEq, Repr

/-- Collapse the implementation result to the specification's granularity:
both exit styles end the job before any chunk transfer. -/
def LCResult.collapse : LCResult → SpecResult
  | LCResult.crash => SpecResult.fatal
  | LCResult.abort => SpecResult.fatal
  | LCResult.done c t => SpecResult.done c t

/-- Sequence a list of optional results, failing when any entry fails. -/
def seqOption {α : Type} : List (Option α) → Option (List α)
  | [] => some []
  | o :: os => o.bind (fun a => (seqOption os).map (fun rest => a :: rest))

inductive LimitKind
  | connection
  | rate
deriving DecidableEq, Repr

def LimitKind.keyword : LimitKind → String
  | LimitKind.connection => "connection-limit"
  | LimitKind.rate => "rate-limit"

/-- The threshold policy: connection-limit under 25 or rate-limit under 100
is too restrictive; list which limits of a line need remediation. -/
def underThreshold (limits : Int × Int) : List LimitKind :=
  (if limits.1 < 25 then [LimitKind.connection] else []) ++
    (if limits.2 < 100 then [LimitKind.rate] else [])

/-- The deactivate statements required for one service line: one per
under-threshold limit, each obtained by fetching the live statement and
rewriting it; any extraction or fetch failure is fatal (`none`). -/
def remediationFor (run : String → Bool × String) (line : String) :
    Option (List String) :=
  (lineLimits line).bind (fun lims =>
    seqOption ((underThreshold lims).map
      (fun k => fetchRewrite run (lineServiceName line) k.keyword)))

/-- The Limit Negotiator as the specification words it. -/
def limitCheckSpec (run : String → Bool × String) (proto : String) : SpecResult :=
  let inetd := run "cat /etc/inetd.conf"
  if !inetd.1 then SpecResult.fatal
  else
    let services := if proto = "ftp" then ["ftp", "ssh"] else ["ssh"]
    match seqOption (services.map
        (fun s => reSearchLine (s ++ " stream tcp/") inetd.2)) with
    | none => SpecResult.fatal
    | some lines =>
        match seqOption (lines.map (remediationFor run)) with
        | none => SpecResult.fatal
        | some cmdss =>
            let cmds := cmdss.flatten
            if cmds.isEmpty then SpecResult.done [] none
            else if (run (txCmd cmds)).1 then SpecResult.done cmds (some (txCmd cmds))
            else SpecResult.fatal

/-- View an implementation loop-body result at the specification's
granularity. -/
def exceptToOption : Except LCFail (List String) → Option (List String)
  | Except.error _ => none
  | Except.ok l => some l

theorem processPort_collapse (run : String → Bool × String) (port : String) :
    exceptToOption (processPort run port) = remediationFor run port := by
  unfold processPort remediationFor underThreshold
  rcases h : lineLimits port with _ | ⟨c, r⟩
  · simp [h, exceptToOption]
  · simp only [h, Option.bind_some]
    rcases h1 : fetchRewrite run (lineServiceName port) "connection-limit" with _ | c1 <;>
      rcases h2 : fetchRewrite run (lineServiceName port) "rate-limit" with _ | c2 <;>
      by_cases hc : c < 25 <;> by_cases hr : r < 100 <;>
      simp [hc, hr, h1, h2, seqOption, exceptToOption, LimitKind.keyword]

theorem limit_check_finish (run : String → Bool × String) (cmds : List String) :
    LCResult.collapse
        (if cmds.isEmpty then LCResult.done [] none
         else if (run (txCmd cmds)).1 then LCResult.done cmds (some (txCmd cmds))
         else LCResult.abort) =
      (if cmds.isEmpty then SpecResult.done [] none
       else if (run (txCmd cmds)).1 then SpecResult.done cmds (some (txCmd cmds))
       else SpecResult.fatal) := by
  by_cases h1 : cmds.isEmpty <;> by_cases h2 : (run (txCmd cmds)).1 <;>
    simp [h1, h2, LCResult.collapse]

/-- The source `limit_check` and the specification-worded `limitCheckSpec`
agree for every shell oracle and every connection type, once the two fatal
exit styles are identified. -/
theorem limit_check_collapse (run : String → Bool × String) (ct : String) :
    (limit_check run ct).collapse = limitCheckSpec run ct := by
  unfold limit_check limitCheckSpec
  have eftp : ("ftp" : String) ++ " stream tcp/" = "ftp stream tcp/" := rfl
  have essh : ("ssh" : String) ++ " stream tcp/" = "ssh stream tcp/" := rfl
  cases hok : (run "cat /etc/inetd.conf").1
  · simp [hok, LCResult.collapse]
  · by_cases hct : ct = "ftp"
    · rcases ha : reSearchLine "ftp stream tcp/" (run "cat /etc/inetd.conf").2 with _ | a <;>
        rcases hb : reSearchLine "ssh stream tcp/" (run "cat /etc/inetd.conf").2 with _ | b <;>
        simp [hok, hct, eftp, essh, ha, hb, seqOption, LCResult.collapse]
      rcases hpa : processPort run a with fa | la
      · have hra : remediationFor run a = none := by
          rw [← processPort_collapse, hpa]; rfl
        rcases fa <;> simp [hpa, hra, seqOption, Except.bind, Except.map, LCResult.collapse]
      · have hra : remediationFor run a = some la := by
          rw [← processPort_collapse, hpa]; rfl
        rcases hpb : processPort run b with fb | lb
        · have hrb : remediationFor run b = none := by
            rw [← processPort_collapse, hpb]; rfl
          rcases fb <;> simp [hpa, hpb, hra, hrb, seqOption, Except.bind, Except.map, LCResult.collapse]
        · have hrb : remediationFor run b = some lb := by
            rw [← processPort_collapse, hpb]; rfl
          simp only [hpa, hpb, hra, hrb, seqOption, Except.bind, Except.map,
            Option.bind_some, Option.map_some, List.map, List.foldl, List.flatten,
            List.nil_append, List.append_nil]
          by_cases hnil : la ++ lb = []
          · rcases List.append_eq_nil.mp hnil with ⟨e1, e2⟩
            subst e1; subst e2
            simp [LCResult.collapse]
          · have hnil2 : ¬(la = [] ∧ lb = []) := by
              intro hh
              exact hnil (by simp [hh.1, hh.2])
            by_cases hrun : (run (txCmd (la ++ lb))).1 <;>
              simp [hnil, hnil2, hrun, LCResult.collapse]
    · rcases hb : reSearchLine "ssh stream tcp/" (run "cat /etc/inetd.conf").2 with _ | b <;>
        simp [hok, hct, essh, hb, seqOption, LCResult.collapse]
      rcases hpb : processPort run b with fb | lb
      · have hrb : remediationFor run b = none := by
          rw [← processPort_collapse, hpb]; rfl
        rcases fb <;> simp [hpb, hrb, seqOption, Except.bind, Except.map, LCResult.collapse]
      · have hrb : remediationFor run b = some lb := by
          rw [← processPort_collapse, hpb]; rfl
        simp only [hpb, hrb, seqOption, Except.bind, Except.map,
          Option.bind_some, Option.map_some, List.map, List.foldl, List.flatten,
          List.nil_append, List.append_nil]
        by_cases hnil : lb = []
        · subst hnil
          simp [LCResult.collapse]
        · by_cases hrun : (run (txCmd lb)).1 <;>
            simp [hnil, hrun, LCResult.collapse]

/-! ### The Transfer Orchestrator: `main` inside the shell session

`mainRun` embeds the body of `main` from the sha1-baseline step to the end
of the `with StartShell(dev)` block (src/splitcopy.py lines 140-337).  What
happened before — argument handling, the port checks and copy-function
selection (embedded separately as `select_copy_func`), local temp-directory
setup and authentication — is outside this model; `Env.isFtp` records which
copy function was selected.

The trace records, in program order, the remote-side actions the claims talk
about: every `remote_cleanup` invocation (with the staging directory's
existence at that moment and whether the `rm -rf` succeeded), the `mkdir` of
the staging directory, the dispatch of the concurrent chunk transfers, the
join, and the remote checksum command (with the staging directory's
existence at that moment).

`remote_cleanup` (lines 571-588) runs `rm -rf` on the staging directory and
returns whether `ss.last_ok`; POSIX `rm -rf` on an absent path succeeds, so
an invocation finding no directory reports success, while on a present
directory the outcome is the oracle's answer (`rm` can fail, e.g. on
permissions), and only a successful removal makes the directory absent. -/

inductive Ev
  | cleanup (present : Bool) (rmOk : Bool)
  | mkdir (ok : Bool)
  | transferStart
  | join (ok : Bool)
  | sha1 (dirPresent : Bool) (ok : Bool)
deriving DecidableEq, Repr

inductive Outcome
  | exited (code : Nat)
  | crashed
deriving DecidableEq, Repr

/-- How `loop.run_until_complete(asyncio.gather(*tasks))` ended: all chunk
transfers completed; an `scp.SCPException` (caught, lines 249-253); a
`KeyboardInterrupt` (caught, lines 254-256); or a paramiko `SSHException`
(caught only by the outer handlers, lines 304-325). -/
inductive TransferResult
  | ok
  | scpErr
  | kbInt
  | sshExc
deriving DecidableEq, Repr

/-- One run's oracle answers.  String outputs that `main` only consumes
through a parse no claim depends on are abstracted to the parsed value
(`availBlocks` from `df`, `remoteSha1` from the `sha1` command, `origSha1`
from the cache file or `shasum`). -/
structure Env where
  fileSize : Nat
  isFtp : Bool
  /-- a sibling `.sha1` cache file exists (line 140) -/
  cacheExists : Bool
  /-- the local `shasum` subprocess succeeded (lines 145-152) -/
  shasumOk : Bool
  origSha1 : String
  /-- `ss.last_ok` after `uname -i` (line 163) -/
  unameOk : Bool
  unameOut : String
  /-- the local `split` subprocess succeeded (lines 175-188) -/
  splitOk : Bool
  /-- `test -d remotedir` succeeded (line 196) -/
  remoteDirExists : Bool
  /-- a stale staging directory from a prior run exists (line 202) -/
  staleDirExists : Bool
  /-- `rm -rf` outcome for the stale-directory cleanup, if one is present -/
  staleRmOk : Bool
  /-- `df remotedir` succeeded (line 207) -/
  dfOk : Bool
  /-- the 512-byte block count parsed from the `df` output (line 211) -/
  availBlocks : Nat
  /-- `mkdir` of the staging directory succeeded (line 221) -/
  mkdirOk : Bool
  /-- shell oracle for the commands `limit_check` issues -/
  run : String → Bool × String
  transferResult : TransferResult
  /-- the remote `cat` join succeeded (lines 262-264) -/
  joinOk : Bool
  /-- `rm -rf` outcome for the first `remote_cleanup` after the staging
  directory was created, if the directory is then present -/
  rmOk1 : Bool
  /-- `rm -rf` outcome for the second such invocation -/
  rmOk2 : Bool
  /-- `ls remotedir/file` succeeded (line 274) -/
  lsOk : Bool
  /-- the remote `sha1` command succeeded (lines 276-278) -/
  sha1CmdOk : Bool
  remoteSha1 : String

/-- `remote_cleanup` (lines 571-588): the trace event, the returned boolean,
and whether the staging directory is still present afterwards. -/
structure CleanupRes where
  ev : Ev
  ret : Bool
  presentAfter : Bool
deriving DecidableEq, Repr

def remote_cleanup (present rmOk : Bool) : CleanupRes :=
  { ev := Ev.cleanup present (if present then rmOk else true)
    ret := if present then rmOk else true
    presentAfter := present && !rmOk }

/-- The connection type `main` passes to `limit_check` (lines 227-231). -/
def svc (e : Env) : String :=
  if e.isFtp then "ftp" else "ssh"

/-- The body of `main` inside the shell session (lines 140-337): the trace
of remote-side actions and the process outcome.  A normal return from `main`
ends the process with exit code 0. -/
def mainRun (e : Env) : List Ev × Outcome :=
  -- local sha1 baseline (lines 140-153)
  if !e.cacheExists && !e.shasumOk then ([], Outcome.exited 1)
  else
    -- chunk size computation (lines 155-172)
    match split_size (e.fileSize : Int) e.isFtp
        (if e.unameOk then some e.unameOut else none) with
    | none => ([], Outcome.crashed)
    | some _ =>
    -- local split (lines 174-188)
    if !e.splitOk then ([], Outcome.exited 1)
    else if !e.remoteDirExists then ([], Outcome.exited 1)
    else
      -- stale staging-directory cleanup (lines 201-203)
      let c0 := remote_cleanup e.staleDirExists e.staleRmOk
      if !c0.ret then ([c0.ev], Outcome.exited 1)
      else if !e.dfOk then ([c0.ev], Outcome.exited 1)
      -- free-space precondition (lines 211-218)
      else if e.fileSize * 2 > e.availBlocks * 512 then ([c0.ev], Outcome.exited 1)
      else
        -- staging-directory creation (lines 220-224)
        let trm := [c0.ev, Ev.mkdir e.mkdirOk]
        if !e.mkdirOk then (trm, Outcome.exited 1)
        else
          -- limit negotiation (lines 226-232)
          match limit_check e.run (svc e) with
          | LCResult.crash => (trm, Outcome.crashed)
          | LCResult.abort => (trm, Outcome.exited 1)
          | LCResult.done _ _ =>
            -- concurrent chunk transfers (lines 234-258)
            let tr2 := trm ++ [Ev.transferStart]
            match e.transferResult with
            | TransferResult.scpErr =>
                (tr2 ++ [(remote_cleanup true e.rmOk1).ev], Outcome.exited 1)
            | TransferResult.kbInt =>
                (tr2 ++ [(remote_cleanup true e.rmOk1).ev], Outcome.exited 1)
            | TransferResult.sshExc => (tr2, Outcome.exited 1)
            | TransferResult.ok =>
              -- join (lines 260-267)
              if !e.joinOk then (tr2 ++ [Ev.join false], Outcome.exited 1)
              else
                -- unconditional post-join cleanup (line 270), result ignored
                let c1 := remote_cleanup true e.rmOk1
                let tr4 := tr2 ++ [Ev.join true, c1.ev]
                -- verification (lines 272-302)
                if !e.lsOk then
                  (tr4 ++ [(remote_cleanup c1.presentAfter e.rmOk2).ev], Outcome.exited 1)
                else
                  let tr5 := tr4 ++ [Ev.sha1 c1.presentAfter e.sha1CmdOk]
                  if !e.sha1CmdOk then (tr5, Outcome.exited 0)
                  else if e.origSha1 = e.remoteSha1 then (tr5, Outcome.exited 0)
                  else
                    (tr5 ++ [(remote_cleanup c1.presentAfter e.rmOk2).ev], Outcome.exited 1)

/-- Is an event any `remote_cleanup` invocation? -/
def isCleanup : Ev → Bool
  | Ev.cleanup _ _ => true
  | _ => false

/-- After the staging directory has been created (the successful `mkdir`
event), does a `remote_cleanup` invocation still occur? -/
def hasCleanupAfterMkdir : List Ev → Bool
  | [] => false
  | Ev.mkdir true :: rest => rest.any isCleanup
  | _ :: rest => hasCleanupAfterMkdir rest

/-- All the guards between the start of the shell-session body and the
remote checksum step pass: the sha1 baseline exists, the chunk-size probe
parses, split succeeds, the remote directory exists, the stale cleanup
returns true, `df` succeeds, the free-space precondition holds, `mkdir`
succeeds, the limit negotiation completes, every chunk transfer completes
and the join succeeds.  (Each conjunct is written as the exact guard
expression of `mainRun`.) -/
def reachesVerify (e : Env) : Bool :=
  !(!e.cacheExists && !e.shasumOk) &&
  (split_size (e.fileSize : Int) e.isFtp
    (if e.unameOk then some e.unameOut else none)).isSome &&
  !(!e.splitOk) &&
  !(!e.remoteDirExists) &&
  (remote_cleanup e.staleDirExists e.staleRmOk).ret &&
  !(!e.dfOk) &&
  !(decide (e.fileSize * 2 > e.availBlocks * 512)) &&
  !(!e.mkdirOk) &&
  (limit_check e.run (svc e)).isDone &&
  (e.transferResult == TransferResult.ok) &&
  e.joinOk

/-! ### Concrete runs used as witnesses and counterexamples -/

/-- A shell whose inetd.conf shows an ssh service line with limits exactly
at the thresholds (connection-limit 25, rate-limit 100), so no remediation
is needed. -/
def runNoLimits : String → Bool × String :=
  fun _ => (true, "ssh stream tcp/a/b/25/100 x")

/-- A shell on which every command fails. -/
def runFail : String → Bool × String :=
  fun _ => (false, "")

/-- A shell whose ftp service line is under both thresholds and whose ssh
line is clear, with fetchable limit statements and a successful commit. -/
def runLimits : String → Bool × String := fun cmd =>
  if cmd = "cat /etc/inetd.conf" then
    (true, "ftp stream tcp/x/y/10/50 a\nssh stream tcp/x/y/30/200 b")
  else if containsSub cmd "connection-limit" then
    (true, "echo\r\nset system services ftp connection-limit 10\r\n% ")
  else if containsSub cmd "rate-limit" then
    (true, "echo\r\nset system services ftp rate-limit 50\r\n% ")
  else (true, "")

/-- A fully successful SCP-protocol run: every guard passes, the transfer
completes, the join succeeds and the checksums match. -/
def envBase : Env :=
  { fileSize := 1000, isFtp := false, cacheExists := true, shasumOk := true,
    origSha1 := "abc", unameOk := true, unameOut := "uname -i\nJNPR\n",
    splitOk := true, remoteDirExists := true, staleDirExists := false,
    staleRmOk := true, dfOk := true, availBlocks := 100, mkdirOk := true,
    run := runNoLimits, transferResult := TransferResult.ok, joinOk := true,
    rmOk1 := true, rmOk2 := true, lsOk := true, sha1CmdOk := true,
    remoteSha1 := "abc" }

/-- The same run except that reading inetd.conf fails, so the limit
negotiation aborts after the staging directory was created. -/
def envLimitFail : Env := { envBase with run := runFail }

/-- The same run except that the remote sha1 command fails, so verification
is indeterminate. -/
def envShaFail : Env := { envBase with sha1CmdOk := false }

/-- The same run except that the post-join cleanup's `rm -rf` fails, so the
staging directory survives into the verification step. -/
def envRmFail : Env := { envBase with rmOk1 := false }

/-- The same run except the checksums do not match. -/
def envMismatch : Env := { envBase with remoteSha1 := "zzz" }

/-- The same run except the reported free space is below twice the file
size. -/
def envNoSpace : Env := { envBase with fileSize := 100000, availBlocks := 1 }

/-! ## Theorems for the claims -/

/-- C1: chunk size is a deterministic function of the file size, the
protocol, and the remote-OS marker.  The FTP path computes
`fileSizeBytes / 40` (floor division); the SCP path computes
`fileSizeBytes / 20` when the OS probe succeeded and its (second line,
right-stripped) output carries the vendor marker `JNPR`, and
`fileSizeBytes / 13` both when the probe succeeded without the marker and
when the probe command failed; and equal inputs always give equal chunk
sizes. -/
theorem chunk_size_policy (f : Int) (p : Option String) :
    (split_size f true p = some (Int.fdiv f 40)) ∧
    (∀ (out : String) (l : List Char), secondSegment ['\n'] out.data = some l →
      "JNPR".data.isPrefixOf (chRStrip l) = true →
      split_size f false (some out) = some (Int.fdiv f 20)) ∧
    (∀ (out : String) (l : List Char), secondSegment ['\n'] out.data = some l →
      "JNPR".data.isPrefixOf (chRStrip l) = false →
      split_size f false (some out) = some (Int.fdiv f 13)) ∧
    (split_size f false none = some (Int.fdiv f 13)) ∧
    (∀ (f2 : Int) (m : Bool) (p2 : Option String), f = f2 → p = p2 →
      split_size f m p = split_size f2 m p2) := by
  refine ⟨rfl, ?_, ?_, rfl, ?_⟩
  · intro out l h1 h2
    simp [split_size, h1, h2]
  · intro out l h1 h2
    simp [split_size, h1, h2]
  · intro f2 m p2 hf hp
    rw [hf, hp]

/-- Witness for C1 at concrete inputs: an 845-byte file on a JNPR-marked
remote gives chunk size 42, on a FreeBSD remote 65. -/
theorem chunk_size_policy_witness :
    split_size 845 false (some "uname -i\nJNPR-11.0\n") = some 42 ∧
    split_size 845 false (some "uname -i\nFreeBSD\n") = some 65 := by
  constructor
  · exact (chunk_size_policy 845 none).2.1 "uname -i\nJNPR-11.0\n"
      "JNPR-11.0".data (by decide) (by decide)
  · exact (chunk_size_policy 845 none).2.2.1 "uname -i\nFreeBSD\n"
      "FreeBSD".data (by decide) (by decide)

theorem fdiv_zero_of_lt {f d : Int} (hf : 0 ≤ f) (hd : 0 ≤ d) (h : f < d) :
    Int.fdiv f d = 0 := by
  rw [Int.fdiv_eq_ediv _ hd]
  exact Int.ediv_eq_zero_of_lt hf h

/-- C9: the chunk size is computed by floor division with no minimum-size
floor: for every non-negative file size strictly below the divisor in force
(40 for FTP, 20 for the marked SCP path, 13 for the unmarked and
probe-failed SCP paths) the computed chunk size is exactly 0, and the
computed chunk size is never negative for a non-negative file size. -/
theorem chunk_size_no_floor (f : Int) (hf : 0 ≤ f) :
    (∀ p, f < 40 → split_size f true p = some 0) ∧
    (∀ (out : String) (l : List Char), secondSegment ['\n'] out.data = some l →
      "JNPR".data.isPrefixOf (chRStrip l) = true → f < 20 →
      split_size f false (some out) = some 0) ∧
    (∀ (out : String) (l : List Char), secondSegment ['\n'] out.data = some l →
      "JNPR".data.isPrefixOf (chRStrip l) = false → f < 13 →
      split_size f false (some out) = some 0) ∧
    (f < 13 → split_size f false none = some 0) ∧
    (∀ (m : Bool) (p : Option String) (n : Int), split_size f m p = some n → 0 ≤ n) := by
  have hnn : ∀ d : Int, 0 ≤ d → 0 ≤ Int.fdiv f d := fun d hd => Int.fdiv_nonneg hf hd
  refine ⟨?_, ?_, ?_, ?_, ?_⟩
  · intro p hlt
    simp [split_size, fdiv_zero_of_lt hf (by decide) hlt]
  · intro out l h1 h2 hlt
    simp [split_size, h1, h2, fdiv_zero_of_lt hf (by decide) hlt]
  · intro out l h1 h2 hlt
    simp [split_size, h1, h2, fdiv_zero_of_lt hf (by decide) hlt]
  · intro hlt
    simp [split_size, fdiv_zero_of_lt hf (by decide) hlt]
  · intro m p n h
    unfold split_size at h
    rcases m with _ | _
    · rcases p with _ | out
      · simp only [if_neg Bool.false_ne_true] at h
        injection h with h
        rw [← h]
        exact hnn 13 (by decide)
      · simp only [if_neg Bool.false_ne_true] at h
        rcases hseg : secondSegment ['\n'] out.data with _ | l
        · rw [hseg] at h
          exact absurd h (by simp)
        · rw [hseg] at h
          by_cases hp : "JNPR".data.isPrefixOf (chRStrip l) = true
          · simp only [hp, if_true] at h
            injection h with h
            rw [← h]
            exact hnn 20 (by decide)
          · rw [Bool.not_eq_true] at hp
            simp only [hp, Bool.false_eq_true, if_false] at h
            injection h with h
            rw [← h]
            exact hnn 13 (by decide)
    · simp only [if_pos rfl] at h
      injection h with h
      rw [← h]
      exact hnn 40 (by decide)

/-- Witness for C9: a 7-byte file yields chunk size 0 on every path, and an
845-byte file yields the non-negative chunk size 65. -/
theorem chunk_size_no_floor_witness :
    split_size 7 true none = some 0 ∧
    split_size 7 false (some "uname -i\nJNPR\n") = some 0 ∧
    split_size 7 false (some "uname -i\nFreeBSD\n") = some 0 ∧
    split_size 7 false none = some 0 ∧ (0 : Int) ≤ 65 := by
  refine ⟨(chunk_size_no_floor 7 (by decide)).1 none (by decide),
    (chunk_size_no_floor 7 (by decide)).2.1 "uname -i\nJNPR\n" "JNPR".data
      (by decide) (by decide) (by decide),
    (chunk_size_no_floor 7 (by decide)).2.2.1 "uname -i\nFreeBSD\n" "FreeBSD".data
      (by decide) (by decide) (by decide),
    (chunk_size_no_floor 7 (by decide)).2.2.2.1 (by decide),
    (chunk_size_no_floor 845 (by decide)).2.2.2.2 false none 65 (by decide)⟩

/-- C6: if the remote SSH port is closed the run exits with code 1 before a
copy function is even selected; with `-s` SCP is used unconditionally;
without `-s`, FTP is used exactly when the FTP port answers, and otherwise
the run silently falls back to SCP. -/
theorem protocol_selection (scpFlag ftpOpen : Bool) :
    (select_copy_func false scpFlag ftpOpen = Except.error 1) ∧
    (select_copy_func true true ftpOpen = Except.ok CopyFunc.scpPut) ∧
    (select_copy_func true false ftpOpen = Except.ok CopyFunc.ftpPut ↔ ftpOpen = true) ∧
    (select_copy_func true false false = Except.ok CopyFunc.scpPut) := by
  cases scpFlag <;> cases ftpOpen <;>
    refine ⟨rfl, rfl, ?_, rfl⟩ <;> simp [select_copy_func]

/-- C8: FTP progress reporting works on one shared running byte total: the
total after `n` chunk callbacks is `8192 * n` no matter how the chunks
interleaved, the file size the percentage is computed against never changes,
and a progress message is emitted precisely when the rounded cumulative
percentage (computed from the shared total against the whole file size)
changes and the new value is a multiple of ten. -/
theorem upload_progress_policy :
    (∀ (fileSize n : Nat),
      (runCallbacks (UploadProgress.init fileSize) n).block_size = 8192 * n) ∧
    (∀ (u : UploadProgress) (n : Nat), (runCallbacks u n).file_size = u.file_size) ∧
    (∀ u : UploadProgress, u.handle.2 = true ↔
      (percentOf (u.block_size + 8192) u.file_size ≠ u.last_percent ∧
       percentOf (u.block_size + 8192) u.file_size % 10 = 0)) := by
  have hstep : ∀ u : UploadProgress,
      u.handle.1.block_size = u.block_size + 8192 ∧ u.handle.1.file_size = u.file_size := by
    intro u
    by_cases h : u.last_percent ≠ percentOf (u.block_size + 8192) u.file_size <;>
      simp [UploadProgress.handle, h]
  refine ⟨?_, ?_, ?_⟩
  · intro fileSize n
    induction n with
    | zero => rfl
    | succ k ih =>
        rw [runCallbacks, (hstep _).1, ih]
        ring
  · intro u n
    induction n with
    | zero => rfl
    | succ k ih => rw [runCallbacks, (hstep _).2, ih]
  · intro u
    by_cases h : u.last_percent ≠ percentOf (u.block_size + 8192) u.file_size
    · simp [UploadProgress.handle, h, Ne.symm h]
    · push_neg at h
      simp [UploadProgress.handle, h]

/-- C2 counterexample: a run in which every precondition passes and the
staging directory is created, but reading inetd.conf then fails, is a
terminal path (exit code 1) reached after staging-directory creation on
which no `remote_cleanup` invocation ever follows the `mkdir` — refuting
the claim that the cleanup coordinator runs on every such terminal path
(limit-negotiation failure included). -/
theorem cleanup_missed_on_limit_failure :
    (mainRun envLimitFail).1 = [Ev.cleanup false true, Ev.mkdir true] ∧
    (mainRun envLimitFail).2 = Outcome.exited 1 ∧
    hasCleanupAfterMkdir (mainRun envLimitFail).1 = false := by
  decide

/-- C2 amended: after the staging directory has been created,
`remote_cleanup` runs before the process exits exactly when the limit
negotiation completed and the transfer phase did not end in an uncaught ssh
exception and (if all chunk transfers completed) the join succeeded.  In
particular cleanup does run on the scp-exception, keyboard-interrupt,
missing-destination and checksum-mismatch paths and on success, but the
limit-negotiation failure, ssh-exception and join-failure paths exit
leaving the staging directory behind. -/
theorem cleanup_after_mkdir_iff (e : Env)
    (h1 : (!e.cacheExists && !e.shasumOk) = false)
    (h2 : (split_size (e.fileSize : Int) e.isFtp
      (if e.unameOk then some e.unameOut else none)).isSome = true)
    (h3 : e.splitOk = true) (h4 : e.remoteDirExists = true)
    (h5 : (remote_cleanup e.staleDirExists e.staleRmOk).ret = true)
    (h6 : e.dfOk = true)
    (h7 : ¬ e.fileSize * 2 > e.availBlocks * 512)
    (h8 : e.mkdirOk = true) :
    hasCleanupAfterMkdir (mainRun e).1 = true ↔
      ((limit_check e.run (svc e)).isDone = true ∧
       e.transferResult ≠ TransferResult.sshExc ∧
       (e.transferResult = TransferResult.ok → e.joinOk = true)) := by
  obtain ⟨sz, hsz⟩ := Option.isSome_iff_exists.mp h2
  have hc0 : remote_cleanup e.staleDirExists e.staleRmOk =
      { ev := Ev.cleanup e.staleDirExists true, ret := true, presentAfter := false } := by
    revert h5
    unfold remote_cleanup
    by_cases hst : e.staleDirExists = true <;> simp [hst]
  have hcl : ∀ b, remote_cleanup true b =
      { ev := Ev.cleanup true b, ret := b, presentAfter := !b } := by
    intro b
    simp [remote_cleanup]
  have hcl2 : ∀ p b, isCleanup (remote_cleanup p b).ev = true := by
    intro p b
    rfl
  unfold mainRun
  rcases hlc : limit_check e.run (svc e) with _ | _ | ⟨cmds, tx⟩ <;>
    rcases htr : e.transferResult with _ | _ | _ | _ <;>
    by_cases hj : e.joinOk = true <;>
    by_cases hls : e.lsOk = true <;>
    by_cases hsha : e.sha1CmdOk = true <;>
    by_cases heq : e.origSha1 = e.remoteSha1 <;>
    simp [h1, h3, h4, hc0, hcl, hcl2, h6, h7, h8, hsz, hlc, htr, hj, hls, hsha, heq,
      LCResult.isDone, hasCleanupAfterMkdir, isCleanup]

/-- Witness for the amended C2 on the fully successful concrete run: the
staging directory is created and a cleanup invocation follows it. -/
theorem cleanup_after_mkdir_iff_witness :
    hasCleanupAfterMkdir (mainRun envBase).1 = true :=
  (cleanup_after_mkdir_iff envBase (by decide) (by decide) (by decide)
    (by decide) (by decide) (by decide) (by decide) (by decide)).mpr (by decide)

/-- C5: at the free-space check, if the reported free space
(`availBlocks * 512` bytes) is below twice the file size the job exits with
code 1 before the staging directory is created and before any chunk
transfer is dispatched; if it is at least twice the file size (equality
included) the precondition passes and the run proceeds to attempt the
staging-directory creation. -/
theorem free_space_precondition (e : Env)
    (h1 : (!e.cacheExists && !e.shasumOk) = false)
    (h2 : (split_size (e.fileSize : Int) e.isFtp
      (if e.unameOk then some e.unameOut else none)).isSome = true)
    (h3 : e.splitOk = true) (h4 : e.remoteDirExists = true)
    (h5 : (remote_cleanup e.staleDirExists e.staleRmOk).ret = true)
    (h6 : e.dfOk = true) :
    (e.availBlocks * 512 < e.fileSize * 2 →
      ((mainRun e).2 = Outcome.exited 1 ∧
       (∀ b, Ev.mkdir b ∉ (mainRun e).1) ∧
       Ev.transferStart ∉ (mainRun e).1)) ∧
    (e.fileSize * 2 ≤ e.availBlocks * 512 →
      Ev.mkdir e.mkdirOk ∈ (mainRun e).1) := by
  obtain ⟨sz, hsz⟩ := Option.isSome_iff_exists.mp h2
  have hc0 : remote_cleanup e.staleDirExists e.staleRmOk =
      { ev := Ev.cleanup e.staleDirExists true, ret := true, presentAfter := false } := by
    revert h5
    unfold remote_cleanup
    by_cases hst : e.staleDirExists = true <;> simp [hst]
  constructor
  · intro hlt
    have h7 : e.fileSize * 2 > e.availBlocks * 512 := hlt
    unfold mainRun
    simp [h1, h3, h4, hc0, h6, h7, hsz]
  · intro hge
    have h7 : ¬ e.fileSize * 2 > e.availBlocks * 512 := not_lt.mpr hge
    unfold mainRun
    rcases hlc : limit_check e.run (svc e) with _ | _ | ⟨cmds, tx⟩ <;>
      rcases htr : e.transferResult <;>
      by_cases hmk : e.mkdirOk = true <;>
      by_cases hj : e.joinOk = true <;>
      by_cases hls : e.lsOk = true <;>
      by_cases hsha : e.sha1CmdOk = true <;>
      by_cases heq : e.origSha1 = e.remoteSha1 <;>
      simp [h1, h3, h4, hc0, h6, h7, hsz, hlc, htr, hmk, hj, hls, hsha, heq]

/-- Witness for C5: the run whose reported free space is 512 bytes against
a 100000-byte file aborts with exit 1 before `mkdir` and before any chunk
transfer; the fully successful run passes the check and creates the staging
directory. -/
theorem free_space_precondition_witness :
    ((mainRun envNoSpace).2 = Outcome.exited 1 ∧
     (∀ b, Ev.mkdir b ∉ (mainRun envNoSpace).1) ∧
     Ev.transferStart ∉ (mainRun envNoSpace).1) ∧
    Ev.mkdir true ∈ (mainRun envBase).1 := by
  constructor
  · exact (free_space_precondition envNoSpace (by decide) (by decide) (by decide)
      (by decide) (by decide) (by decide)).1 (by decide)
  · exact (free_space_precondition envBase (by decide) (by decide) (by decide)
      (by decide) (by decide) (by decide)).2 (by decide)

/-- C10 counterexample: when the post-join cleanup's `rm -rf` fails, the
run still reaches checksum verification with the staging directory present
(the sha1 event records the directory as existing), refuting the claim that
the directory has always already been removed at that point.  The first
post-join invocation did happen (and failed), and the run even ends with
exit code 0 since the checksums match. -/
theorem staging_dir_present_at_verification :
    Ev.cleanup true false ∈ (mainRun envRmFail).1 ∧
    Ev.sha1 true true ∈ (mainRun envRmFail).1 ∧
    (mainRun envRmFail).2 = Outcome.exited 0 := by
  decide

/-- C10 amended: on every run that reaches checksum verification — whether
the checksums then match, mismatch, or the remote sha1 command fails —
`remote_cleanup` has already been invoked unconditionally between the
successful join and the remote sha1 command (the fifth trace event, between
the join and the sha1 events); the staging directory has actually been
removed at verification time exactly when that invocation's `rm -rf`
succeeded (the sha1 event records the directory as present exactly when
`rmOk1` is false); and exactly on the checksum-mismatch runs a further
cleanup follows, which is therefore always a second post-join invocation
and runs against an already-removed directory exactly when the first one
succeeded.  The whole trace and the exit code of every such run are
exhibited. -/
theorem cleanup_before_verification (e : Env)
    (h1 : (!e.cacheExists && !e.shasumOk) = false)
    (h2 : (split_size (e.fileSize : Int) e.isFtp
      (if e.unameOk then some e.unameOut else none)).isSome = true)
    (h3 : e.splitOk = true) (h4 : e.remoteDirExists = true)
    (h5 : (remote_cleanup e.staleDirExists e.staleRmOk).ret = true)
    (h6 : e.dfOk = true)
    (h7 : ¬ e.fileSize * 2 > e.availBlocks * 512)
    (h8 : e.mkdirOk = true)
    (hlc : (limit_check e.run (svc e)).isDone = true)
    (htr : e.transferResult = TransferResult.ok)
    (hj : e.joinOk = true) (hls : e.lsOk = true) :
    (mainRun e).1 =
      [Ev.cleanup e.staleDirExists true, Ev.mkdir true, Ev.transferStart,
       Ev.join true, Ev.cleanup true e.rmOk1, Ev.sha1 (!e.rmOk1) e.sha1CmdOk] ++
      (if e.sha1CmdOk = true ∧ ¬ e.origSha1 = e.remoteSha1 then
        [Ev.cleanup (!e.rmOk1) (if e.rmOk1 then true else e.rmOk2)]
      else []) ∧
    (mainRun e).2 =
      (if e.sha1CmdOk = true ∧ ¬ e.origSha1 = e.remoteSha1 then Outcome.exited 1
       else Outcome.exited 0) := by
  obtain ⟨sz, hsz⟩ := Option.isSome_iff_exists.mp h2
  have hc0 : remote_cleanup e.staleDirExists e.staleRmOk =
      { ev := Ev.cleanup e.staleDirExists true, ret := true, presentAfter := false } := by
    revert h5
    unfold remote_cleanup
    by_cases hst : e.staleDirExists = true <;> simp [hst]
  have hcl : ∀ b, remote_cleanup true b =
      { ev := Ev.cleanup true b, ret := b, presentAfter := !b } := by
    intro b
    simp [remote_cleanup]
  have hcf : ∀ b, remote_cleanup false b =
      { ev := Ev.cleanup false true, ret := true, presentAfter := false } := by
    intro b
    simp [remote_cleanup]
  rcases hlcr : limit_check e.run (svc e) with _ | _ | ⟨cmds, tx⟩ <;>
    rw [hlcr] at hlc <;>
    simp [LCResult.isDone] at hlc
  unfold mainRun
  by_cases hsha : e.sha1CmdOk = true <;>
    by_cases heq : e.origSha1 = e.remoteSha1 <;>
    cases hrm1 : e.rmOk1 <;> cases hrm2 : e.rmOk2 <;>
    simp [h1, h3, h4, hc0, hcl, hcf, h6, h7, h8, hsz, hlcr, htr, hj, hls,
      hsha, heq, hrm1, hrm2]

/-- Witness for the amended C10 on two concrete runs reaching verification:
the mismatch run (both cleanups succeeding) has exactly the exhibited
seven-event trace and exits 1, and the matching run has exactly the
six-event trace, its sha1 event recording the directory as removed, and
exits 0. -/
theorem cleanup_before_verification_witness :
    ((mainRun envMismatch).1 =
      [Ev.cleanup false true, Ev.mkdir true, Ev.transferStart, Ev.join true,
       Ev.cleanup true true, Ev.sha1 false true, Ev.cleanup false true] ∧
     (mainRun envMismatch).2 = Outcome.exited 1) ∧
    ((mainRun envBase).1 =
      [Ev.cleanup false true, Ev.mkdir true, Ev.transferStart, Ev.join true,
       Ev.cleanup true true, Ev.sha1 false true] ∧
     (mainRun envBase).2 = Outcome.exited 0) := by
  constructor
  · obtain ⟨ht, ho⟩ := cleanup_before_verification envMismatch (by decide)
      (by decide) (by decide) (by decide) (by decide) (by decide) (by decide)
      (by decide) (by decide) (by decide) (by decide) (by decide)
    refine ⟨?_, ?_⟩
    · rw [ht]
      decide
    · rw [ho]
      decide
  · obtain ⟨ht, ho⟩ := cleanup_before_verification envBase (by decide)
      (by decide) (by decide) (by decide) (by decide) (by decide) (by decide)
      (by decide) (by decide) (by decide) (by decide) (by decide)
    refine ⟨?_, ?_⟩
    · rw [ht]
      decide
    · rw [ho]
      decide

/-- The process outcome of a run never depends on the `rm -rf` results of
the post-mkdir cleanup invocations: those only influence the recorded trace
and the directory state, never the exit code. -/
theorem outcome_ignores_rm (e : Env) (b1 b2 : Bool) :
    (mainRun { e with rmOk1 := b1, rmOk2 := b2 }).2 = (mainRun e).2 := by
  rcases e with ⟨fs, ftp, ce, so, os, uk, uo, sp, rd, sd, sr, df, ab, mk, run,
    tr, jo, r1, r2, ls, sh, rs⟩
  unfold mainRun svc
  dsimp only
  rcases hsz : split_size (fs : Int) ftp (if uk = true then some uo else none)
      with _ | z
  all_goals simp only [hsz]
  all_goals cases ce <;> cases so <;> try simp
  all_goals cases sp <;> try simp
  all_goals cases rd <;> try simp
  all_goals cases sd <;> cases sr <;> try simp [remote_cleanup]
  all_goals cases df <;> try simp
  all_goals by_cases g6 : fs * 2 > ab * 512 <;> try simp [g6]
  all_goals cases mk <;> try simp
  all_goals rcases hlc : limit_check run (if ftp = true then "ftp" else "ssh")
    with _ | _ | ⟨cmds, tx⟩ <;> try simp [hlc]
  all_goals cases tr <;> try simp
  all_goals cases jo <;> try simp
  all_goals cases ls <;> try simp
  all_goals cases sh <;> try simp
  all_goals by_cases g11 : os = rs <;> try simp [g11]

/-- C7: the Cleanup Coordinator is idempotent and non-escalating: an
invocation finding the staging directory already removed reports success
and leaves it removed; on the checksum-mismatch terminal path with a
successful post-join cleanup, the second invocation targets the
already-removed directory and the job still exits with the mismatch code 1;
and on every run whatsoever the exit code is unchanged by the `rm -rf`
outcomes of the terminal-path cleanups (a cleanup failure is reported in
the trace but never escalates or masks the job outcome). -/
theorem cleanup_idempotent_nonescalating (e : Env)
    (h1 : (!e.cacheExists && !e.shasumOk) = false)
    (h2 : (split_size (e.fileSize : Int) e.isFtp
      (if e.unameOk then some e.unameOut else none)).isSome = true)
    (h3 : e.splitOk = true) (h4 : e.remoteDirExists = true)
    (h5 : (remote_cleanup e.staleDirExists e.staleRmOk).ret = true)
    (h6 : e.dfOk = true)
    (h7 : ¬ e.fileSize * 2 > e.availBlocks * 512)
    (h8 : e.mkdirOk = true)
    (hlc : (limit_check e.run (svc e)).isDone = true)
    (htr : e.transferResult = TransferResult.ok)
    (hj : e.joinOk = true) (hls : e.lsOk = true)
    (hsha : e.sha1CmdOk = true)
    (hne : ¬ e.origSha1 = e.remoteSha1) :
    (∀ b, remote_cleanup false b =
      { ev := Ev.cleanup false true, ret := true, presentAfter := false }) ∧
    (e.rmOk1 = true →
      (Ev.cleanup false true ∈ (mainRun e).1 ∧ (mainRun e).2 = Outcome.exited 1)) ∧
    (∀ (e2 : Env) (b1 b2 : Bool),
      (mainRun { e2 with rmOk1 := b1, rmOk2 := b2 }).2 = (mainRun e2).2) := by
  refine ⟨?_, ?_, fun e2 b1 b2 => outcome_ignores_rm e2 b1 b2⟩
  · intro b
    simp [remote_cleanup]
  · intro hrm1
    obtain ⟨sz, hsz⟩ := Option.isSome_iff_exists.mp h2
    have hc0 : remote_cleanup e.staleDirExists e.staleRmOk =
        { ev := Ev.cleanup e.staleDirExists true, ret := true, presentAfter := false } := by
      revert h5
      unfold remote_cleanup
      by_cases hst : e.staleDirExists = true <;> simp [hst]
    have hcl : ∀ b, remote_cleanup true b =
        { ev := Ev.cleanup true b, ret := b, presentAfter := !b } := by
      intro b
      simp [remote_cleanup]
    have hcf : ∀ b, remote_cleanup false b =
        { ev := Ev.cleanup false true, ret := true, presentAfter := false } := by
      intro b
      simp [remote_cleanup]
    rcases hlcr : limit_check e.run (svc e) with _ | _ | ⟨cmds, tx⟩ <;>
      rw [hlcr] at hlc <;>
      simp [LCResult.isDone] at hlc
    unfold mainRun
    simp [h1, h3, h4, hc0, hcl, hcf, h6, h7, h8, hsz, hlcr, htr, hj, hls,
      hsha, hne, hrm1]

/-- Witness for C7 at the concrete mismatch run: the second invocation on
the removed directory reports success, the mismatch exit code is 1, and
flipping both `rm -rf` outcomes leaves the successful run's exit code
unchanged. -/
theorem cleanup_idempotent_nonescalating_witness :
    remote_cleanup false false =
      { ev := Ev.cleanup false true, ret := true, presentAfter := false } ∧
    (Ev.cleanup false true ∈ (mainRun envMismatch).1 ∧
      (mainRun envMismatch).2 = Outcome.exited 1) ∧
    (mainRun { envBase with rmOk1 := false, rmOk2 := false }).2 = (mainRun envBase).2 := by
  obtain ⟨a, b, c⟩ := cleanup_idempotent_nonescalating envMismatch (by decide)
    (by decide) (by decide) (by decide) (by decide) (by decide) (by decide)
    (by decide) (by decide) (by decide) (by decide) (by decide) (by decide)
    (by decide)
  exact ⟨a false, b (by decide), c envBase false false⟩

/-- C3 counterexample: a run on which the remote sha1 command fails to
execute still ends with exit code 0 — the informational "verification
didnt complete" path falls through to the normal end of `main` — so exit
code 0 is not reserved for verified transfers.  The sha1 event in the trace
records the failed checksum command. -/
theorem exit_zero_without_verification :
    (mainRun envShaFail).2 = Outcome.exited 0 ∧
    Ev.sha1 false false ∈ (mainRun envShaFail).1 ∧
    envShaFail.sha1CmdOk = false := by
  decide

/-- C3 amended: the process exits with code 0 exactly when the run reaches
the verification step (every earlier guard passed, all chunk transfers
completed and the join succeeded), the destination file is listed, and
either the remote sha1 command fails (verification indeterminate, an
informational exit with the destination left in place) or the remote sha1
equals the local baseline.  Every other run exits nonzero. -/
theorem exit_zero_iff (e : Env) :
    (mainRun e).2 = Outcome.exited 0 ↔
      (reachesVerify e = true ∧ e.lsOk = true ∧
        (e.sha1CmdOk = false ∨ e.origSha1 = e.remoteSha1)) := by
  rcases e with ⟨fs, ftp, ce, so, os, uk, uo, sp, rd, sd, sr, df, ab, mk, run,
    tr, jo, r1, r2, ls, sh, rs⟩
  unfold mainRun reachesVerify svc
  dsimp only
  rcases hsz : split_size (fs : Int) ftp (if uk = true then some uo else none)
      with _ | z
  all_goals simp only [hsz]
  all_goals cases ce <;> cases so <;> try simp
  all_goals cases sp <;> try simp
  all_goals cases rd <;> try simp
  all_goals cases sd <;> cases sr <;> try simp [remote_cleanup]
  all_goals cases df <;> try simp
  all_goals by_cases g6 : fs * 2 > ab * 512 <;> try simp [g6]
  all_goals cases mk <;> try simp
  all_goals rcases hlc : limit_check run (if ftp = true then "ftp" else "ssh")
    with _ | _ | ⟨cmds, tx⟩ <;> try simp [hlc, LCResult.isDone]
  all_goals cases tr <;> try simp
  all_goals cases jo <;> try simp
  all_goals cases ls <;> try simp
  all_goals cases sh <;> try simp
  all_goals by_cases g11 : os = rs <;> try simp [g11]
  all_goals omega

/-- C4: the Limit Negotiator implements its specification.  For every shell
oracle and connection type, the source `limit_check` — which for ftp
examines both the ftp and the ssh inetd service lines and for scp only the
ssh line, and for every line whose connection-limit is under 25 or whose
rate-limit is under 100 fetches the live `set ... <limit> <value>`
statement, strips the trailing numeric value, rewrites `set` to
`deactivate`, accumulates all such statements and applies them in the single
transaction `cli -c "edit; <statements> commit and-quit"` — computes the
same result as the specification-worded `limitCheckSpec`, with every
failure to read the configuration, locate a limit statement, or commit
collapsing to a fatal abort; and whenever `limit_check` does not complete,
the run dispatches no chunk transfer. -/
theorem limit_negotiator_spec :
    (∀ (run : String → Bool × String) (ct : String),
      (limit_check run ct).collapse = limitCheckSpec run ct) ∧
    (∀ e : Env, (limit_check e.run (svc e)).isDone = false →
      Ev.transferStart ∉ (mainRun e).1) := by
  refine ⟨limit_check_collapse, ?_⟩
  intro e hnd
  rcases e with ⟨fs, ftp, ce, so, os, uk, uo, sp, rd, sd, sr, df, ab, mk, run,
    tr, jo, r1, r2, ls, sh, rs⟩
  unfold svc at hnd
  unfold mainRun svc
  dsimp only
  dsimp only at hnd
  rcases hsz : split_size (fs : Int) ftp (if uk = true then some uo else none)
      with _ | z
  all_goals simp only [hsz]
  all_goals cases ce <;> cases so <;> try simp
  all_goals cases sp <;> try simp
  all_goals cases rd <;> try simp
  all_goals cases sd <;> cases sr <;> try simp [remote_cleanup]
  all_goals cases df <;> try simp
  all_goals by_cases g6 : fs * 2 > ab * 512 <;> try simp [g6]
  all_goals cases mk <;> try simp
  all_goals rcases hlc : limit_check run (if ftp = true then "ftp" else "ssh")
    with _ | _ | ⟨cmds, tx⟩ <;>
    rw [hlc] at hnd <;> try simp [hlc]
  all_goals simp [LCResult.isDone] at hnd

/-- Witness for C4: the refinement instantiated at the concrete
under-threshold ftp configuration, and the concrete limit-negotiation
failure run, which dispatches no chunk transfer. -/
theorem limit_negotiator_spec_witness :
    (limit_check runLimits "ftp").collapse = limitCheckSpec runLimits "ftp" ∧
    Ev.transferStart ∉ (mainRun envLimitFail).1 :=
  ⟨limit_negotiator_spec.1 runLimits "ftp",
   limit_negotiator_spec.2 envLimitFail (by decide)⟩

end Splitcopy
